import Mathlib

/-!
# ESP32 sensor node: sensor decoding, configuration store, telemetry outcome

A shallow embedding of `sensor_handler.cpp`, `wifi_manager.cpp` and
`data_sender.cpp` of the `esp32_wifimanager_test` device firmware, with the
properties established about it.

Conventions of the embedding.

* A byte on the two-wire bus is a `Fin 256`; a `uint8_t`, `uint32_t` or `int`
  variable is a `Nat` or `Int` reduced explicitly to its width.
* The hardware and the libraries the firmware calls (the `Wire` bus, the
  `Preferences` store, the portal web server, the HTTP client) are the
  environment: what they deliver is an argument of the embedded function.
* `float` results are rationals: the decoding formulas are evaluated in exact
  arithmetic, and the final rounding to a 32-bit float is not part of the model.
-/

namespace SensorHandler

/-! ## `sensor_handler.h` / `sensor_handler.cpp` -/

/-- Conversion of an `int` to `uint8_t`. -/
def toUInt8 (v : Int) : Nat := (v % 256).toNat

/-- Conversion of a non-negative value to `uint32_t`. -/
def toUInt32 (v : Nat) : Nat := v % 4294967296

/-- The receive buffer left by `Wire.requestFrom(AHT10_ADDRESS, quantity)` when the
device answers with the bytes `response`: at most `quantity` bytes are taken. -/
def requestFrom (response : List (Fin 256)) (quantity : Nat) : List (Fin 256) :=
  response.take quantity

/-- The number of bytes `Wire.available()` reports for a receive buffer. -/
def available (rx : List (Fin 256)) : Nat := rx.length

/-- One `Wire.read()`: the next byte as an `int` (`-1` on an empty buffer) and the
buffer that remains. -/
def wireRead (rx : List (Fin 256)) : Int × List (Fin 256) :=
  match rx with
  | [] => (-1, [])
  | b :: rest => ((b.val : Int), rest)

/-- The loop `for (int i = 0; i < n; i++) data[i] = Wire.read();` filling a
`uint8_t` array. -/
def readBytes : Nat → List (Fin 256) → List Nat
  | 0, _ => []
  | n + 1, rx => toUInt8 (wireRead rx).1 :: readBytes n (wireRead rx).2

/-- The status check at the end of `initAHT10`, after the soft reset and the
initialisation command have been written: `response` is what the device delivers
to `Wire.requestFrom(AHT10_ADDRESS, 1)`. -/
def initAHT10 (response : List (Fin 256)) : Bool :=
  let rx := requestFrom response 1
  if available rx ≠ 0 then
    let status := toUInt8 (wireRead rx).1
    decide (status &&& 0x68 = 0x08)
  else
    false

/-- A decoded measurement, the two `float` outputs of `readAHT10`. -/
structure SensorReading where
  temperature : ℚ
  humidity : ℚ
  deriving DecidableEq

/-- The local `uint32_t rawHumidity` of `readAHT10`, from the array `data`. -/
def rawHumidity (data : List Nat) : Nat :=
  toUInt32 (toUInt32 (toUInt32 (toUInt32 (data.getD 1 0) <<< 12)
    ||| toUInt32 (toUInt32 (data.getD 2 0) <<< 4)) ||| (data.getD 3 0 >>> 4))

/-- The local `uint32_t rawTemperature` of `readAHT10`, from the array `data`. -/
def rawTemperature (data : List Nat) : Nat :=
  toUInt32 (toUInt32 (toUInt32 ((toUInt32 (data.getD 3 0) &&& 0x0F) <<< 16)
    ||| toUInt32 (toUInt32 (data.getD 4 0) <<< 8)) ||| data.getD 5 0)

/-- The read half of `readAHT10`, after the measurement has been triggered:
`response` is what the device delivers to `Wire.requestFrom(AHT10_ADDRESS, 6)`.
`none` is the `false` return, `some r` the `true` return with the outputs `r`; the
two formulas are evaluated over the rationals. -/
def readAHT10 (response : List (Fin 256)) : Option SensorReading :=
  let rx := requestFrom response 6
  if available rx < 6 then
    none
  else
    let data := readBytes 6 rx
    if data.getD 0 0 &&& 0x80 ≠ 0 then
      none
    else
      some
        { humidity := ((rawHumidity data : ℚ) * 100) / 1048576
          temperature := ((rawTemperature data : ℚ) * 200) / 1048576 - 50 }

end SensorHandler

namespace WifiManager

/-! ## `wifi_manager.h` / `wifi_manager.cpp` -/

/-- Reduction of an integer to the 32-bit `int` (wrap-around modulo 2^32). -/
def toInt32 (v : Int) : Int := (v + 2147483648) % 4294967296 - 2147483648

/-- A value held under one key of the `Preferences` store: a string or an `int`. -/
inductive PrefValue where
  | str (s : String)
  | int (v : Int)
  deriving DecidableEq

/-- Modelled from the spec: the `Preferences` object (the persistent key-value store
of the ESP32 core, opened by the sketch), whose code is not among the sources. A key
is absent or holds one typed value; strings are text without an embedded NUL. -/
abbrev Preferences := List (String × PrefValue)

/-- Modelled from the spec: `Preferences::getString(key, defaultValue)`, the stored
string, or the default when the key is absent or holds no string. -/
def getString (preferences : Preferences) (key : String) (defaultValue : String) : String :=
  match preferences.lookup key with
  | some (PrefValue.str s) => s
  | _ => defaultValue

/-- Modelled from the spec: `Preferences::getInt(key, defaultValue)`, the stored
integer, or the default when the key is absent or holds no integer. -/
def getInt (preferences : Preferences) (key : String) (defaultValue : Int) : Int :=
  match preferences.lookup key with
  | some (PrefValue.int v) => v
  | _ => defaultValue

/-- Modelled from the spec: `Preferences::putString(key, value)`, after which the key
holds `value` and every other key is as before. -/
def putString (preferences : Preferences) (key : String) (value : String) : Preferences :=
  (key, PrefValue.str value) :: preferences.filter (fun e => e.1 ≠ key)

/-- Modelled from the spec: `Preferences::putInt(key, value)`, after which the key
holds `value` and every other key is as before. -/
def putInt (preferences : Preferences) (key : String) (value : Int) : Preferences :=
  (key, PrefValue.int value) :: preferences.filter (fun e => e.1 ≠ key)

/-- The characters C `isspace` accepts: space, tab, line feed, vertical tab, form
feed, carriage return. -/
def isSpace (c : Char) : Bool :=
  c = ' ' || c = Char.ofNat 9 || c = Char.ofNat 10 || c = Char.ofNat 11
    || c = Char.ofNat 12 || c = Char.ofNat 13

/-- The value of the longest prefix of decimal digits, continuing from `acc`. -/
def digitsValue : List Char → Nat → Nat
  | [], acc => acc
  | c :: cs, acc => if c.isDigit then digitsValue cs (acc * 10 + (c.toNat - 48)) else acc

/-- Saturation at the bounds of the 32-bit `long`. -/
def clampLong (v : Int) : Int :=
  if v < -2147483648 then -2147483648 else if 2147483647 < v then 2147483647 else v

/-- Modelled from the spec: C `atol`, which `String::toInt` calls and whose code is
not among the sources. Leading white space is skipped, an optional sign is read, then
the longest run of decimal digits; no digits give 0 (the fallback the spec names),
and a value outside the 32-bit `long` saturates. -/
def atol (s : List Char) : Int :=
  match s.dropWhile isSpace with
  | [] => 0
  | c :: cs =>
    if c = '-' then clampLong (-(digitsValue cs 0 : Int))
    else if c = '+' then clampLong (digitsValue cs 0)
    else clampLong (digitsValue (c :: cs) 0)

/-- Modelled from the spec: `String::toInt()` of the Arduino core. -/
def toInt (s : String) : Int := atol s.data

/-- A custom field of the portal form (`WiFiManagerParameter`). -/
structure WiFiManagerParameter where
  id : String
  label : String
  value : String
  length : Nat
  deriving DecidableEq

/-- Modelled from the spec: `WiFiManagerParameter::setValue(value, length)`, which
keeps at most `length` characters of `value`. -/
def WiFiManagerParameter.setValue (p : WiFiManagerParameter) (value : String) (length : Nat) :
    WiFiManagerParameter :=
  { p with value := String.mk (value.data.take length), length := length }

/-- The part of the `WiFiManager` object the functions touch: the registered custom
fields, whether a save-parameters callback is installed, the portal timeout in
seconds, and the fields of the submitted form as the portal web server holds them. -/
structure WiFiManager where
  params : List WiFiManagerParameter
  saveParamsCallback : Bool
  configPortalTimeout : Nat
  serverArgs : List (String × String)
  deriving DecidableEq

/-- Modelled from the spec: `wifiManager.server->arg(name)`, the submitted value of
the form field, or the empty string when the form has no such field. -/
def WiFiManager.arg (wifiManager : WiFiManager) (name : String) : String :=
  (wifiManager.serverArgs.lookup name).getD ""

/-- The four variables the functions receive by reference and overwrite. -/
structure DeviceConfig where
  deviceName : String
  serverURL : String
  readingFrequencyMinutes : Int
  readingFrequency : Int
  deriving DecidableEq

/-- `loadConfiguration`: the store is read, not written; the four outputs are returned
next to it. The `int` product wraps around modulo 2^32 where it leaves the 32-bit
range (C++ leaves that case undefined; the wrap is what the target computes). -/
def loadConfiguration (preferences : Preferences) : Preferences × DeviceConfig :=
  let deviceName := getString preferences "device_name" "ESP32-Device"
  let serverURL := getString preferences "server_url" "http://localhost:3000"
  let readingFrequencyMinutes := getInt preferences "reading_freq" 5
  let readingFrequency := toInt32 (readingFrequencyMinutes * 60000)
  (preferences,
    { deviceName := deviceName
      serverURL := serverURL
      readingFrequencyMinutes := readingFrequencyMinutes
      readingFrequency := readingFrequency })

/-- `setupWiFiManager`: loads the configuration, fills the three static form fields
with it, registers them, installs the save-parameters callback and sets the portal
timeout. -/
def setupWiFiManager (wifiManager : WiFiManager) (preferences : Preferences) :
    WiFiManager × Preferences × DeviceConfig :=
  let loaded := loadConfiguration preferences
  let preferences1 := loaded.1
  let cfg := loaded.2
  let custom_device_name : WiFiManagerParameter :=
    { id := "device_name", label := "Device Name", value := "", length := 40 }
  let custom_server_url : WiFiManagerParameter :=
    { id := "server_url", label := "Dashboard URL", value := "", length := 100 }
  let custom_reading_freq : WiFiManagerParameter :=
    { id := "reading_freq", label := "Reading Frequency (minutes)", value := "", length := 10 }
  let custom_device_name := custom_device_name.setValue cfg.deviceName 40
  let custom_server_url := custom_server_url.setValue cfg.serverURL 100
  let custom_reading_freq :=
    custom_reading_freq.setValue (toString cfg.readingFrequencyMinutes) 10
  ({ wifiManager with
      params := wifiManager.params
        ++ [custom_device_name, custom_server_url, custom_reading_freq]
      saveParamsCallback := true
      configPortalTimeout := 300 },
    preferences1, cfg)

/-- `saveConfigCallback`: takes the three submitted form fields, derives the interval
(an `int` product, as in `loadConfiguration`) and writes the three keys. -/
def saveConfigCallback (wifiManager : WiFiManager) (preferences : Preferences) :
    Preferences × DeviceConfig :=
  let deviceName := wifiManager.arg "device_name"
  let serverURL := wifiManager.arg "server_url"
  let readingFrequencyMinutes := toInt (wifiManager.arg "reading_freq")
  let readingFrequency := toInt32 (readingFrequencyMinutes * 60000)
  let preferences1 := putString preferences "device_name" deviceName
  let preferences2 := putString preferences1 "server_url" serverURL
  let preferences3 := putInt preferences2 "reading_freq" readingFrequencyMinutes
  (preferences3,
    { deviceName := deviceName
      serverURL := serverURL
      readingFrequencyMinutes := readingFrequencyMinutes
      readingFrequency := readingFrequency })

/-- The objects the sketch owns and hands to the functions by reference. -/
structure Firmware where
  wifiManager : WiFiManager
  preferences : Preferences
  config : DeviceConfig
  deriving DecidableEq

/-- One call made by the sketch or the portal: `setupWiFiManager`,
`loadConfiguration`, or a form submission with the given fields followed by
`saveConfigCallback`. -/
inductive Step where
  | setup
  | load
  | save (form : List (String × String))
  deriving DecidableEq

/-- The effect of one call on the objects of the sketch. -/
def step (fw : Firmware) : Step → Firmware
  | Step.setup =>
    let r := setupWiFiManager fw.wifiManager fw.preferences
    { wifiManager := r.1, preferences := r.2.1, config := r.2.2 }
  | Step.load =>
    let r := loadConfiguration fw.preferences
    { fw with preferences := r.1, config := r.2 }
  | Step.save form =>
    let wm : WiFiManager := { fw.wifiManager with serverArgs := form }
    let r := saveConfigCallback wm fw.preferences
    { wifiManager := wm, preferences := r.1, config := r.2 }

/-- A sequence of calls, in order. -/
def run (fw : Firmware) (steps : List Step) : Firmware :=
  steps.foldl step fw

/-- The invariant the spec names: non-empty name and URL, positive interval. -/
def DeviceConfig.Valid (cfg : DeviceConfig) : Prop :=
  cfg.deviceName ≠ "" ∧ cfg.serverURL ≠ "" ∧ 0 < cfg.readingFrequencyMinutes

instance (cfg : DeviceConfig) : Decidable cfg.Valid := by
  unfold DeviceConfig.Valid
  infer_instance

/-- A submitted form whose three fields give a valid configuration. -/
def ValidForm (form : List (String × String)) : Prop :=
  (form.lookup "device_name").getD "" ≠ ""
    ∧ (form.lookup "server_url").getD "" ≠ ""
    ∧ 0 < toInt ((form.lookup "reading_freq").getD "")

instance (form : List (String × String)) : Decidable (ValidForm form) := by
  unfold ValidForm
  infer_instance

end WifiManager

namespace DataSender

/-! ## `data_sender.h` / `data_sender.cpp` -/

/-- C `round`: the nearest integer, halves away from zero. -/
def cRound (x : ℚ) : Int :=
  if 0 ≤ x then ⌊x + 1 / 2⌋ else ⌈x - 1 / 2⌉

/-- The nested `data` object of the JSON document. -/
structure SensorData where
  temperature : ℚ
  humidity : ℚ
  rssi : Int
  free_heap : Nat
  deriving DecidableEq

/-- The JSON document `doc` that is serialised and posted. -/
structure TelemetryPayload where
  device_id : String
  device_name : String
  data : SensorData
  deriving DecidableEq

/-- What the function finds around it: the link state (`WiFi.status() ==
WL_CONNECTED`), the hardware address, signal strength and free heap, and the
transport: the status code `http.POST` returns for a URL and a document, the
response body and the text of an error code. -/
structure Network where
  connected : Bool
  macAddress : String
  rssi : Int
  freeHeap : Nat
  post : String → TelemetryPayload → Int
  response : String
  errorToString : Int → String

/-- A call on the `HTTPClient` object. -/
inductive HttpCall where
  | begin (url : String)
  | addHeader (name value : String)
  | POST (payload : TelemetryPayload)
  | getString
  | errorToString (code : Int)
  | httpEnd
  deriving DecidableEq

/-- The branch `postDataToServer` ends in, under the names of the spec:
`NotConnected` is the early return, `Success` the branch `httpResponseCode == 201`,
`UnexpectedStatus` its `else`, `TransportError` the `else` of `httpResponseCode > 0`. -/
inductive DeliveryOutcome where
  | NotConnected
  | Success
  | UnexpectedStatus (code : Int) (body : String)
  | TransportError (code : Int) (description : String)
  deriving DecidableEq

/-- The branch taken and the calls made on the HTTP client, in order. -/
structure Report where
  outcome : DeliveryOutcome
  calls : List HttpCall
  deriving DecidableEq

/-- The JSON document built from the device name and the reading. -/
def buildPayload (net : Network) (deviceName : String) (temperature humidity : ℚ) :
    TelemetryPayload :=
  { device_id := deviceName ++ "_" ++ net.macAddress
    device_name := deviceName
    data :=
      { temperature := (cRound (temperature * 100) : ℚ) / 100
        humidity := (cRound (humidity * 100) : ℚ) / 100
        rssi := net.rssi
        free_heap := net.freeHeap } }

/-- The status code `http.POST` returns for this delivery. -/
def httpResponseCode (net : Network) (serverURL deviceName : String)
    (temperature humidity : ℚ) : Int :=
  net.post (serverURL ++ "/api/data") (buildPayload net deviceName temperature humidity)

/-- `postDataToServer`. -/
def postDataToServer (net : Network) (serverURL deviceName : String)
    (temperature humidity : ℚ) : Report :=
  if net.connected = false then
    { outcome := DeliveryOutcome.NotConnected, calls := [] }
  else
    let payload := buildPayload net deviceName temperature humidity
    let sent : List HttpCall :=
      [HttpCall.begin (serverURL ++ "/api/data"),
        HttpCall.addHeader "Content-Type" "application/json",
        HttpCall.POST payload]
    let code := net.post (serverURL ++ "/api/data") payload
    if 0 < code then
      if code = 201 then
        { outcome := DeliveryOutcome.Success
          calls := sent ++ [HttpCall.getString, HttpCall.httpEnd] }
      else
        { outcome := DeliveryOutcome.UnexpectedStatus code net.response
          calls := sent ++ [HttpCall.getString, HttpCall.httpEnd] }
    else
      { outcome := DeliveryOutcome.TransportError code (net.errorToString code)
        calls := sent ++ [HttpCall.errorToString code, HttpCall.httpEnd] }

end DataSender

namespace SensorHandler

/-! ## Properties of the sensor driver -/

/-- A byte read from the bus is unchanged by its storage in a `uint8_t`. -/
theorem toUInt8_byte (b : Fin 256) : toUInt8 (b.val : Int) = b.val := by
  have h := b.isLt
  unfold toUInt8
  omega

/-- Six reads from a buffer of at least six bytes give its first six bytes. -/
theorem readBytes_six (b0 b1 b2 b3 b4 b5 : Fin 256) (rest : List (Fin 256)) :
    readBytes 6 (b0 :: b1 :: b2 :: b3 :: b4 :: b5 :: rest)
      = [b0.val, b1.val, b2.val, b3.val, b4.val, b5.val] := by
  simp [readBytes, wireRead, toUInt8_byte]

/-- The shifts and ORs of `rawHumidity` add up: the three fields do not overlap. -/
theorem rawHumidity_eq (d0 b1 b2 b3 d4 d5 : Nat) (h1 : b1 < 256) (h2 : b2 < 256)
    (h3 : b3 < 256) :
    rawHumidity [d0, b1, b2, b3, d4, d5] = b1 * 4096 + b2 * 16 + b3 / 16 := by
  have e1 : b1 <<< 12 = 2 ^ 12 * b1 := by rw [Nat.shiftLeft_eq, Nat.mul_comm]
  have e2 : b2 <<< 4 = 2 ^ 4 * b2 := by rw [Nat.shiftLeft_eq, Nat.mul_comm]
  have e3 : b3 >>> 4 = b3 / 16 := by rw [Nat.shiftRight_eq_div_pow]
  have k1 : 2 ^ 4 * b2 + b3 / 16 < 2 ^ 12 := by omega
  have key : b1 <<< 12 ||| b2 <<< 4 ||| b3 >>> 4 = b1 * 4096 + b2 * 16 + b3 / 16 := by
    rw [e1, e2, e3, Nat.or_assoc, ← Nat.mul_add_lt_is_or (by omega) b2,
      ← Nat.mul_add_lt_is_or k1 b1]
    omega
  have m1 : b1 % 4294967296 = b1 := Nat.mod_eq_of_lt (by omega)
  have m2 : b2 % 4294967296 = b2 := Nat.mod_eq_of_lt (by omega)
  have m3 : b1 <<< 12 % 4294967296 = b1 <<< 12 := Nat.mod_eq_of_lt (by omega)
  have m4 : b2 <<< 4 % 4294967296 = b2 <<< 4 := Nat.mod_eq_of_lt (by omega)
  have k2 : b1 <<< 12 ||| b2 <<< 4 < 2 ^ 32 :=
    Nat.or_lt_two_pow (by omega) (by omega)
  have m5 : (b1 <<< 12 ||| b2 <<< 4) % 4294967296 = b1 <<< 12 ||| b2 <<< 4 :=
    Nat.mod_eq_of_lt (by omega)
  have m6 : (b1 * 4096 + b2 * 16 + b3 / 16) % 4294967296
      = b1 * 4096 + b2 * 16 + b3 / 16 := Nat.mod_eq_of_lt (by omega)
  simp only [rawHumidity, toUInt32, List.getD_cons_succ, List.getD_cons_zero, m1, m2, m3,
    m4, m5, key, m6]

/-- The mask, shifts and ORs of `rawTemperature` add up: the fields do not overlap. -/
theorem rawTemperature_eq (d0 d1 d2 b3 b4 b5 : Nat) (h3 : b3 < 256) (h4 : b4 < 256)
    (h5 : b5 < 256) :
    rawTemperature [d0, d1, d2, b3, b4, b5] = (b3 % 16) * 65536 + b4 * 256 + b5 := by
  have e0 : b3 &&& 0x0F = b3 % 16 := Nat.and_pow_two_sub_one_eq_mod b3 4
  have e1 : (b3 % 16) <<< 16 = 2 ^ 16 * (b3 % 16) := by rw [Nat.shiftLeft_eq, Nat.mul_comm]
  have e2 : b4 <<< 8 = 2 ^ 8 * b4 := by rw [Nat.shiftLeft_eq, Nat.mul_comm]
  have k1 : 2 ^ 8 * b4 + b5 < 2 ^ 16 := by omega
  have key : (b3 % 16) <<< 16 ||| b4 <<< 8 ||| b5 = (b3 % 16) * 65536 + b4 * 256 + b5 := by
    rw [e1, e2, Nat.or_assoc, ← Nat.mul_add_lt_is_or (by omega) b4,
      ← Nat.mul_add_lt_is_or k1 (b3 % 16)]
    omega
  have m1 : b3 % 4294967296 = b3 := Nat.mod_eq_of_lt (by omega)
  have m2 : b4 % 4294967296 = b4 := Nat.mod_eq_of_lt (by omega)
  have m3 : (b3 % 16) <<< 16 % 4294967296 = (b3 % 16) <<< 16 := Nat.mod_eq_of_lt (by omega)
  have m4 : b4 <<< 8 % 4294967296 = b4 <<< 8 := Nat.mod_eq_of_lt (by omega)
  have k2 : (b3 % 16) <<< 16 ||| b4 <<< 8 < 2 ^ 32 :=
    Nat.or_lt_two_pow (by omega) (by omega)
  have m5 : ((b3 % 16) <<< 16 ||| b4 <<< 8) % 4294967296 = (b3 % 16) <<< 16 ||| b4 <<< 8 :=
    Nat.mod_eq_of_lt (by omega)
  have m6 : ((b3 % 16) * 65536 + b4 * 256 + b5) % 4294967296
      = (b3 % 16) * 65536 + b4 * 256 + b5 := Nat.mod_eq_of_lt (by omega)
  simp only [rawTemperature, toUInt32, List.getD_cons_succ, List.getD_cons_zero, m1, m2,
    m3, m4, m5, e0, key, m6]

/-- The result of `readAHT10` on a response of at least six bytes. -/
theorem readAHT10_six (b0 b1 b2 b3 b4 b5 : Fin 256) (rest : List (Fin 256)) :
    readAHT10 (b0 :: b1 :: b2 :: b3 :: b4 :: b5 :: rest)
      = if b0.val &&& 0x80 ≠ 0 then none
        else some
          { humidity :=
              ((b1.val * 4096 + b2.val * 16 + b3.val / 16 : Nat) : ℚ) * 100 / 1048576
            temperature :=
              (((b3.val % 16) * 65536 + b4.val * 256 + b5.val : Nat) : ℚ) * 200 / 1048576
                - 50 } := by
  have hlen : ¬ available (requestFrom (b0 :: b1 :: b2 :: b3 :: b4 :: b5 :: rest) 6) < 6 := by
    simp [available, requestFrom]
  have htake : requestFrom (b0 :: b1 :: b2 :: b3 :: b4 :: b5 :: rest) 6
      = [b0, b1, b2, b3, b4, b5] := by
    simp [requestFrom]
  unfold readAHT10
  simp only [hlen, if_false]
  rw [htake, readBytes_six b0 b1 b2 b3 b4 b5 [],
    rawHumidity_eq _ _ _ _ _ _ b1.isLt b2.isLt b3.isLt,
    rawTemperature_eq _ _ _ _ _ _ b3.isLt b4.isLt b5.isLt]
  simp only [List.getD_cons_zero]

/-- The result of `readAHT10` on a response of fewer than six bytes. -/
theorem readAHT10_short (response : List (Fin 256)) (h : response.length < 6) :
    readAHT10 response = none := by
  have hlen : available (requestFrom response 6) < 6 := by
    simp only [available, requestFrom, List.length_take]
    omega
  unfold readAHT10
  simp only [hlen, if_true]

/-- C1: for every 6-byte frame `b0..b5` whose byte `b0` has its high bit clear,
`readAHT10` succeeds with humidity `H * 100 / 1048576`, where
`H = b1 * 4096 + b2 * 16 + b3 / 16`, and temperature `T * 200 / 1048576 - 50`, where
`T = (b3 % 16) * 65536 + b4 * 256 + b5`, in exact arithmetic; the fixture frame
`[0x00, 0x33, 0x33, 0x55, 0x66, 0x77]` has `H = 209717`, `T = 353911`, humidity
`20971700 / 1048576` (about 20.0002) and temperature `70782200 / 1048576 - 50` (about
17.5032). -/
theorem readAHT10_decodes (b0 b1 b2 b3 b4 b5 : Fin 256) (hready : b0.val &&& 0x80 = 0) :
    readAHT10 [b0, b1, b2, b3, b4, b5]
        = some
          { humidity :=
              ((b1.val * 4096 + b2.val * 16 + b3.val / 16 : Nat) : ℚ) * 100 / 1048576
            temperature :=
              (((b3.val % 16) * 65536 + b4.val * 256 + b5.val : Nat) : ℚ) * 200 / 1048576
                - 50 }
      ∧ rawHumidity (readBytes 6 [0x00, 0x33, 0x33, 0x55, 0x66, 0x77]) = 209717
      ∧ rawTemperature (readBytes 6 [0x00, 0x33, 0x33, 0x55, 0x66, 0x77]) = 353911
      ∧ readAHT10 [0x00, 0x33, 0x33, 0x55, 0x66, 0x77]
          = some { humidity := 20971700 / 1048576, temperature := 70782200 / 1048576 - 50 }
      ∧ |(20971700 / 1048576 : ℚ) - 20.0002| < 0.00005
      ∧ |(70782200 / 1048576 - 50 : ℚ) - 17.5032| < 0.00005 := by
  refine ⟨?_, ?_, ?_, ?_, ?_, ?_⟩
  · rw [readAHT10_six, if_neg (by simp [hready])]
  · decide
  · decide
  · rw [readAHT10_six, if_neg (by decide)]
    have e1 : ((0x33 : Fin 256) : Nat) = 51 := rfl
    have e2 : ((0x55 : Fin 256) : Nat) = 85 := rfl
    have e3 : ((0x66 : Fin 256) : Nat) = 102 := rfl
    have e4 : ((0x77 : Fin 256) : Nat) = 119 := rfl
    rw [e1, e2, e3, e4]
    norm_num
  · rw [abs_lt]
    constructor <;> norm_num
  · rw [abs_lt]
    constructor <;> norm_num

theorem readAHT10_decodes_witness :
    readAHT10 [0x1C, 0x80, 0x00, 0x05, 0x00, 0x00]
      = some { humidity := 50, temperature := ((327680 : Nat) : ℚ) * 200 / 1048576 - 50 } := by
  have h := (readAHT10_decodes 0x1C 0x80 0x00 0x05 0x00 0x00 (by decide)).1
  rw [h]
  have e1 : ((0x80 : Fin 256) : Nat) = 128 := rfl
  have e2 : ((0x00 : Fin 256) : Nat) = 0 := rfl
  have e3 : ((0x05 : Fin 256) : Nat) = 5 := rfl
  rw [e1, e2, e3]
  norm_num

/-- C2: for every 6-byte frame whose first byte has its high bit clear, both raw
values are below 2^20, and the reading `readAHT10` decodes has
`0 ≤ humidity < 100` and `-50 ≤ temperature < 150`. -/
theorem readAHT10_range (b0 b1 b2 b3 b4 b5 : Fin 256) (hready : b0.val &&& 0x80 = 0) :
    rawHumidity (readBytes 6 [b0, b1, b2, b3, b4, b5]) < 2 ^ 20
      ∧ rawTemperature (readBytes 6 [b0, b1, b2, b3, b4, b5]) < 2 ^ 20
      ∧ ∃ r, readAHT10 [b0, b1, b2, b3, b4, b5] = some r
          ∧ 0 ≤ r.humidity ∧ r.humidity < 100
          ∧ -50 ≤ r.temperature ∧ r.temperature < 150 := by
  have h1 := b1.isLt
  have h2 := b2.isLt
  have h3 := b3.isLt
  have h4 := b4.isLt
  have h5 := b5.isLt
  have hH : b1.val * 4096 + b2.val * 16 + b3.val / 16 < 1048576 := by omega
  have hT : (b3.val % 16) * 65536 + b4.val * 256 + b5.val < 1048576 := by omega
  have hHq : ((b1.val * 4096 + b2.val * 16 + b3.val / 16 : Nat) : ℚ) < 1048576 := by
    exact_mod_cast hH
  have hTq : (((b3.val % 16) * 65536 + b4.val * 256 + b5.val : Nat) : ℚ) < 1048576 := by
    exact_mod_cast hT
  have hdec : readAHT10 [b0, b1, b2, b3, b4, b5]
      = some
          { humidity :=
              ((b1.val * 4096 + b2.val * 16 + b3.val / 16 : Nat) : ℚ) * 100 / 1048576
            temperature :=
              (((b3.val % 16) * 65536 + b4.val * 256 + b5.val : Nat) : ℚ) * 200 / 1048576
                - 50 } := by
    rw [readAHT10_six, if_neg (by simp [hready])]
  refine ⟨?_, ?_, _, hdec, ?_, ?_, ?_, ?_⟩
  · rw [readBytes_six b0 b1 b2 b3 b4 b5 [], rawHumidity_eq _ _ _ _ _ _ h1 h2 h3]
    omega
  · rw [readBytes_six b0 b1 b2 b3 b4 b5 [], rawTemperature_eq _ _ _ _ _ _ h3 h4 h5]
    omega
  · positivity
  · show ((b1.val * 4096 + b2.val * 16 + b3.val / 16 : Nat) : ℚ) * 100 / 1048576 < 100
    rw [div_lt_iff₀ (by norm_num)]
    linarith
  · show (-50 : ℚ) ≤ (((b3.val % 16) * 65536 + b4.val * 256 + b5.val : Nat) : ℚ) * 200
      / 1048576 - 50
    have hnn : (0 : ℚ) ≤ (((b3.val % 16) * 65536 + b4.val * 256 + b5.val : Nat) : ℚ) * 200
      / 1048576 := by positivity
    linarith
  · show (((b3.val % 16) * 65536 + b4.val * 256 + b5.val : Nat) : ℚ) * 200 / 1048576 - 50
      < 150
    rw [sub_lt_iff_lt_add, div_lt_iff₀ (by norm_num)]
    linarith

theorem readAHT10_range_witness :
    ∃ r, readAHT10 [0x1C, 0xFF, 0xFF, 0xFF, 0xFF, 0xFF] = some r
      ∧ 0 ≤ r.humidity ∧ r.humidity < 100 ∧ -50 ≤ r.temperature ∧ r.temperature < 150 :=
  (readAHT10_range 0x1C 0xFF 0xFF 0xFF 0xFF 0xFF (by decide)).2.2

/-- C3: `readAHT10` returns false exactly when fewer than 6 bytes are available after
the request, or 6 bytes are available and the first byte has bit 0x80 set; it returns
true, with a reading, exactly when 6 bytes are available and that bit is clear. -/
theorem readAHT10_fails_iff (response : List (Fin 256)) :
    (readAHT10 response = none ↔
        available (requestFrom response 6) < 6
          ∨ (available (requestFrom response 6) = 6
              ∧ ∃ b0 rest, response = b0 :: rest ∧ b0.val &&& 0x80 ≠ 0))
      ∧ ((∃ r, readAHT10 response = some r) ↔
        available (requestFrom response 6) = 6
          ∧ ∃ b0 rest, response = b0 :: rest ∧ b0.val &&& 0x80 = 0) := by
  rcases response with _ | ⟨b0, _ | ⟨b1, _ | ⟨b2, _ | ⟨b3, _ | ⟨b4, _ | ⟨b5, rest⟩⟩⟩⟩⟩⟩
  case cons.cons.cons.cons.cons.cons =>
    rw [readAHT10_six]
    have hav : available (requestFrom (b0 :: b1 :: b2 :: b3 :: b4 :: b5 :: rest) 6) = 6 := by
      simp [available, requestFrom]
    rw [hav]
    by_cases hb : b0.val &&& 0x80 = 0
    · simp [hb]
    · simp [hb]
  all_goals
    rw [readAHT10_short _ (by simp)]
    simp [available, requestFrom]

/-- C4: `initAHT10` returns true exactly when a status byte `s` could be read and
`s AND 0b01101000 = 0b00001000`; it returns false when no byte is available, and for
a status byte `s` it returns whether `s` has that value under the mask. -/
theorem initAHT10_true_iff (response : List (Fin 256)) :
    (initAHT10 response = true ↔
        ∃ s rest, response = s :: rest ∧ s.val &&& 0b01101000 = 0b00001000)
      ∧ initAHT10 [] = false
      ∧ ∀ s rest, initAHT10 (s :: rest) = decide (s.val &&& 0b01101000 = 0b00001000) := by
  have hcons : ∀ (s : Fin 256) (rest : List (Fin 256)),
      initAHT10 (s :: rest) = decide (s.val &&& 0x68 = 0x08) := by
    intro s rest
    simp [initAHT10, requestFrom, available, wireRead, toUInt8_byte]
  refine ⟨?_, by decide, hcons⟩
  rcases response with _ | ⟨s, rest⟩
  · simp [initAHT10, requestFrom, available]
  · rw [hcons]
    simp

end SensorHandler

namespace WifiManager

/-! ## Properties of the configuration store and the portal -/

/-- A decimal digit character is a digit of the right value, no white space, no sign. -/
theorem digitChar_spec (d : Nat) (h : d < 10) :
    (Nat.digitChar d).isDigit = true ∧ (Nat.digitChar d).toNat - 48 = d
      ∧ isSpace (Nat.digitChar d) = false ∧ Nat.digitChar d ≠ '-' ∧ Nat.digitChar d ≠ '+' := by
  interval_cases d <;> decide

/-- The decimal digits of `n` are read back as `n` by `digitsValue`. -/
theorem toDigitsCore_spec : ∀ (fuel n : Nat), n < fuel → ∀ ds : List Char,
    ∃ c L, Nat.toDigitsCore 10 fuel n ds = (c :: L) ++ ds
      ∧ isSpace c = false ∧ c ≠ '-' ∧ c ≠ '+'
      ∧ ∀ acc rest, digitsValue ((c :: L) ++ rest) acc
          = digitsValue rest (acc * 10 ^ (L.length + 1) + n) := by
  intro fuel
  induction fuel with
  | zero => intro n h; omega
  | succ fuel ih =>
    intro n hn ds
    have hd := digitChar_spec (n % 10) (Nat.mod_lt _ (by decide))
    by_cases h0 : n / 10 = 0
    · refine ⟨Nat.digitChar (n % 10), [], ?_, hd.2.2.1, hd.2.2.2.1, hd.2.2.2.2, ?_⟩
      · simp [Nat.toDigitsCore, h0]
      · intro acc rest
        have hn10 : n % 10 = n := by omega
        simp only [digitsValue, List.cons_append, List.nil_append, hd.1, hd.2.1, if_true,
          List.length_nil, zero_add, pow_one]
        rw [hn10]
        rfl
    · have hlt : n / 10 < fuel := by omega
      obtain ⟨c, L, hL, hs, hm, hp, hval⟩ := ih (n / 10) hlt (Nat.digitChar (n % 10) :: ds)
      refine ⟨c, L ++ [Nat.digitChar (n % 10)], ?_, hs, hm, hp, ?_⟩
      · simp [Nat.toDigitsCore, h0, hL]
      · intro acc rest
        have e : (c :: (L ++ [Nat.digitChar (n % 10)])) ++ rest
            = (c :: L) ++ (Nat.digitChar (n % 10) :: rest) := by simp
        rw [e, hval]
        simp only [digitsValue, hd.1, if_true, hd.2.1, List.length_append, List.length_singleton]
        congr 1
        have := Nat.div_add_mod n 10
        ring_nf
        omega

/-- Parsing the decimal text of `n` gives `n`, saturated at the `long` range. -/
theorem toInt_toString (n : Nat) : toInt (toString n) = clampLong n := by
  obtain ⟨c, L, hL, hs, hm, hp, hval⟩ := toDigitsCore_spec (n + 1) n (Nat.lt_succ_self n) []
  have hdata : (toString n).data = c :: L := by
    show (Nat.repr n).data = c :: L
    simp [Nat.repr, Nat.toDigits, hL, List.asString]
  have hv : digitsValue (c :: L) 0 = n := by
    have h := hval 0 []
    simpa [digitsValue] using h
  unfold toInt atol
  rw [hdata]
  simp only [List.dropWhile, hs, hm, hp, hv, if_false]

/-- Saturation leaves a value of the 32-bit range unchanged. -/
theorem clampLong_of_range (v : Int) (h1 : -2147483648 ≤ v) (h2 : v ≤ 2147483647) :
    clampLong v = v := by
  unfold clampLong
  rw [if_neg (by omega), if_neg (by omega)]

/-- Reduction to `int` leaves a value of the 32-bit range unchanged. -/
theorem toInt32_of_range (v : Int) (h1 : -2147483648 ≤ v) (h2 : v ≤ 2147483647) :
    toInt32 v = v := by
  unfold toInt32
  omega

/-- What `loadConfiguration` returns after `saveConfigCallback` is what was saved. -/
theorem load_after_save (wifiManager : WiFiManager) (preferences : Preferences) :
    (loadConfiguration (saveConfigCallback wifiManager preferences).1).2
      = (saveConfigCallback wifiManager preferences).2 := by
  simp [loadConfiguration, saveConfigCallback, getString, getInt, putString, putInt,
    List.lookup, List.filter]

/-- Steps other than a submission leave the store as it is. -/
theorem run_preferences_of_no_save (steps : List Step)
    (hsteps : ∀ s ∈ steps, s = Step.setup ∨ s = Step.load) (fw : Firmware) :
    (run fw steps).preferences = fw.preferences := by
  induction steps generalizing fw with
  | nil => rfl
  | cons s rest ih =>
    have hrest : ∀ t ∈ rest, t = Step.setup ∨ t = Step.load :=
      fun t ht => hsteps t (List.mem_cons_of_mem s ht)
    have hs : (step fw s).preferences = fw.preferences := by
      rcases hsteps s (List.mem_cons_self s rest) with h | h <;> rw [h] <;> rfl
    show (run (step fw s) rest).preferences = fw.preferences
    rw [ih hrest, hs]

/-- C5: on a store that holds none of the keys `device_name`, `server_url`,
`reading_freq`, `loadConfiguration` returns the name "ESP32-Device", the URL
"http://localhost:3000", 5 minutes and the derived interval 300000 ms; and each key
that is absent takes its default whatever the other keys hold. -/
theorem loadConfiguration_defaults (preferences : Preferences) :
    (preferences.lookup "device_name" = none →
        (loadConfiguration preferences).2.deviceName = "ESP32-Device")
      ∧ (preferences.lookup "server_url" = none →
        (loadConfiguration preferences).2.serverURL = "http://localhost:3000")
      ∧ (preferences.lookup "reading_freq" = none →
        (loadConfiguration preferences).2.readingFrequencyMinutes = 5
          ∧ (loadConfiguration preferences).2.readingFrequency = 300000)
      ∧ (preferences.lookup "device_name" = none → preferences.lookup "server_url" = none →
        preferences.lookup "reading_freq" = none →
        (loadConfiguration preferences).2
          = { deviceName := "ESP32-Device"
              serverURL := "http://localhost:3000"
              readingFrequencyMinutes := 5
              readingFrequency := 300000 }) := by
  refine ⟨?_, ?_, ?_, ?_⟩
  · intro h
    simp [loadConfiguration, getString, h]
  · intro h
    simp [loadConfiguration, getString, h]
  · intro h
    simp [loadConfiguration, getInt, h, toInt32]
  · intro h1 h2 h3
    simp [loadConfiguration, getString, getInt, h1, h2, h3, toInt32]

theorem loadConfiguration_defaults_witness :
    (loadConfiguration []).2
        = { deviceName := "ESP32-Device"
            serverURL := "http://localhost:3000"
            readingFrequencyMinutes := 5
            readingFrequency := 300000 }
      ∧ (loadConfiguration [("server_url", PrefValue.str "http://10.0.0.2:3000")]).2.deviceName
        = "ESP32-Device" :=
  ⟨(loadConfiguration_defaults []).2.2.2 rfl rfl rfl,
    (loadConfiguration_defaults [("server_url", PrefValue.str "http://10.0.0.2:3000")]).1
      (by decide)⟩

/-- C6 (as amended): for every device name of at most 40 characters, server URL of at
most 100 characters and interval `n` with `0 < n ≤ 2147483647` (its decimal text has
at most 10 characters), submitting the form fields `device_name`, `server_url` and
`reading_freq` = decimal text of `n`, running `saveConfigCallback` and then
`loadConfiguration` returns exactly that name, that URL and `n`, whatever the store
held before. -/
theorem save_load_roundtrip (wifiManager : WiFiManager) (preferences : Preferences)
    (deviceName serverURL : String) (n : Nat)
    (_hname : deviceName.length ≤ 40) (_hurl : serverURL.length ≤ 100)
    (hpos : 0 < n) (_htext : (toString n).length ≤ 10) (hmax : n ≤ 2147483647) :
    (loadConfiguration
        (saveConfigCallback
          { wifiManager with
            serverArgs :=
              [("device_name", deviceName), ("server_url", serverURL),
                ("reading_freq", toString n)] }
          preferences).1).2.deviceName = deviceName
      ∧ (loadConfiguration
        (saveConfigCallback
          { wifiManager with
            serverArgs :=
              [("device_name", deviceName), ("server_url", serverURL),
                ("reading_freq", toString n)] }
          preferences).1).2.serverURL = serverURL
      ∧ (loadConfiguration
        (saveConfigCallback
          { wifiManager with
            serverArgs :=
              [("device_name", deviceName), ("server_url", serverURL),
                ("reading_freq", toString n)] }
          preferences).1).2.readingFrequencyMinutes = (n : Int) := by
  have hparse : toInt (toString n) = (n : Int) := by
    rw [toInt_toString, clampLong_of_range _ (by omega) (by omega)]
  rw [load_after_save]
  simp [saveConfigCallback, WiFiManager.arg, List.lookup, hparse]

theorem save_load_roundtrip_witness :
    (loadConfiguration
        (saveConfigCallback
          { params := [], saveParamsCallback := true, configPortalTimeout := 300
            serverArgs :=
              [("device_name", "greenhouse"), ("server_url", "http://10.0.0.2:3000"),
                ("reading_freq", toString 15)] }
          [("reading_freq", PrefValue.int 5)]).1).2.readingFrequencyMinutes = 15 :=
  (save_load_roundtrip
    { params := [], saveParamsCallback := true, configPortalTimeout := 300, serverArgs := [] }
    [("reading_freq", PrefValue.int 5)] "greenhouse" "http://10.0.0.2:3000" 15
    (by decide) (by decide) (by decide) (by decide) (by decide)).2.2

/-- C6 as stated fails: the interval 2147483648 is positive and its decimal text has
10 characters, yet after `saveConfigCallback` the store holds, and
`loadConfiguration` returns, 2147483647. -/
theorem save_load_roundtrip_fails :
    ("ESP32-Device").length ≤ 40 ∧ ("http://localhost:3000").length ≤ 100
      ∧ 0 < (2147483648 : Nat) ∧ (toString (2147483648 : Nat)).length ≤ 10
      ∧ (loadConfiguration
          (saveConfigCallback
            { params := [], saveParamsCallback := true, configPortalTimeout := 300
              serverArgs :=
                [("device_name", "ESP32-Device"), ("server_url", "http://localhost:3000"),
                  ("reading_freq", toString (2147483648 : Nat))] }
            []).1).2.readingFrequencyMinutes = 2147483647
      ∧ (loadConfiguration
          (saveConfigCallback
            { params := [], saveParamsCallback := true, configPortalTimeout := 300
              serverArgs :=
                [("device_name", "ESP32-Device"), ("server_url", "http://localhost:3000"),
                  ("reading_freq", toString (2147483648 : Nat))] }
            []).1).2.readingFrequencyMinutes ≠ ((2147483648 : Nat) : Int) := by
  decide

/-- A valid form makes `saveConfigCallback` return a valid configuration. -/
theorem save_valid (wifiManager : WiFiManager) (preferences : Preferences)
    (form : List (String × String)) (hform : ValidForm form) :
    (saveConfigCallback { wifiManager with serverArgs := form } preferences).2.Valid := by
  obtain ⟨h1, h2, h3⟩ := hform
  exact ⟨h1, h2, h3⟩

/-- C7 (as amended): from every store on which `loadConfiguration` returns a
non-empty device name, a non-empty server URL and a positive number of minutes (the
store that holds none of the keys is one), after any sequence of `setupWiFiManager`,
`loadConfiguration` and `saveConfigCallback` steps in which every submitted form has
a non-empty `device_name`, a non-empty `server_url` and a `reading_freq` that parses
to a positive integer, `loadConfiguration` again returns a non-empty device name, a
non-empty server URL and a positive number of minutes. -/
theorem config_invariant (fw : Firmware) (steps : List Step)
    (hinit : (loadConfiguration fw.preferences).2.Valid)
    (hforms : ∀ form, Step.save form ∈ steps → ValidForm form) :
    (loadConfiguration (run fw steps).preferences).2.Valid := by
  induction steps generalizing fw with
  | nil => exact hinit
  | cons s rest ih =>
    have hrest : ∀ form, Step.save form ∈ rest → ValidForm form :=
      fun form hf => hforms form (List.mem_cons_of_mem s hf)
    show (loadConfiguration (run (step fw s) rest).preferences).2.Valid
    apply ih (step fw s) _ hrest
    cases s with
    | setup => exact hinit
    | load => exact hinit
    | save form =>
      have hform : ValidForm form := hforms form (List.mem_cons_self _ rest)
      show (loadConfiguration
        (saveConfigCallback { fw.wifiManager with serverArgs := form } fw.preferences).1).2.Valid
      rw [load_after_save]
      exact save_valid fw.wifiManager fw.preferences form hform

theorem config_invariant_witness :
    (loadConfiguration
      (run
        { wifiManager :=
            { params := [], saveParamsCallback := false, configPortalTimeout := 0
              serverArgs := [] }
          preferences := []
          config :=
            { deviceName := "", serverURL := "", readingFrequencyMinutes := 0
              readingFrequency := 0 } }
        [Step.setup,
          Step.save
            [("device_name", "greenhouse"), ("server_url", "http://10.0.0.2:3000"),
              ("reading_freq", "15")],
          Step.load]).preferences).2.Valid :=
  config_invariant _ _ (by decide) (by
    intro form hform
    simp only [List.mem_cons, List.mem_singleton, Step.save.injEq, reduceCtorEq, false_or,
      or_false, List.mem_nil_iff] at hform
    rw [hform]
    decide)

/-- C7 as stated fails twice over: a store may already hold 0 minutes, and from the
store that holds no key a submission of a form with no usable field makes
`loadConfiguration` return an empty device name, an empty server URL and 0 minutes. -/
theorem config_invariant_fails :
    ¬ (loadConfiguration [("reading_freq", PrefValue.int 0)]).2.Valid
      ∧ (loadConfiguration
          (run
            { wifiManager :=
                { params := [], saveParamsCallback := false, configPortalTimeout := 0
                  serverArgs := [] }
              preferences := []
              config :=
                { deviceName := "", serverURL := "", readingFrequencyMinutes := 0
                  readingFrequency := 0 } }
            [Step.load, Step.save [("reading_freq", "abc")], Step.load]).preferences).2
        = { deviceName := "", serverURL := "", readingFrequencyMinutes := 0
            readingFrequency := 0 }
      ∧ ¬ (loadConfiguration
          (run
            { wifiManager :=
                { params := [], saveParamsCallback := false, configPortalTimeout := 0
                  serverArgs := [] }
              preferences := []
              config :=
                { deviceName := "", serverURL := "", readingFrequencyMinutes := 0
                  readingFrequency := 0 } }
            [Step.load, Step.save [("reading_freq", "abc")], Step.load]).preferences).2.Valid := by
  decide

/-- C8 (as amended): for every minutes value `m` with `-35791 ≤ m ≤ 35791` that
`loadConfiguration` reads from the store or `saveConfigCallback` parses from the
`reading_freq` field, the derived interval `readingFrequency` it returns equals the
integer `m * 60000`. -/
theorem derived_interval (wifiManager : WiFiManager) (preferences : Preferences) :
    (-35791 ≤ (loadConfiguration preferences).2.readingFrequencyMinutes →
        (loadConfiguration preferences).2.readingFrequencyMinutes ≤ 35791 →
        (loadConfiguration preferences).2.readingFrequency
          = (loadConfiguration preferences).2.readingFrequencyMinutes * 60000)
      ∧ (-35791 ≤ (saveConfigCallback wifiManager preferences).2.readingFrequencyMinutes →
        (saveConfigCallback wifiManager preferences).2.readingFrequencyMinutes ≤ 35791 →
        (saveConfigCallback wifiManager preferences).2.readingFrequency
          = (saveConfigCallback wifiManager preferences).2.readingFrequencyMinutes * 60000) := by
  constructor
  · intro h1 h2
    have h1 : -35791 ≤ getInt preferences "reading_freq" 5 := h1
    have h2 : getInt preferences "reading_freq" 5 ≤ 35791 := h2
    exact toInt32_of_range _ (by omega) (by omega)
  · intro h1 h2
    have h1 : -35791 ≤ toInt (wifiManager.arg "reading_freq") := h1
    have h2 : toInt (wifiManager.arg "reading_freq") ≤ 35791 := h2
    exact toInt32_of_range _ (by omega) (by omega)

theorem derived_interval_witness :
    (loadConfiguration [("reading_freq", PrefValue.int 35791)]).2.readingFrequency
        = 35791 * 60000
      ∧ (saveConfigCallback
          { params := [], saveParamsCallback := false, configPortalTimeout := 0
            serverArgs := [("reading_freq", "-35791")] }
          []).2.readingFrequency = -35791 * 60000 :=
  ⟨(derived_interval
      { params := [], saveParamsCallback := false, configPortalTimeout := 0
        serverArgs := [("reading_freq", "-35791")] }
      [("reading_freq", PrefValue.int 35791)]).1 (by decide) (by decide),
    (derived_interval
      { params := [], saveParamsCallback := false, configPortalTimeout := 0
        serverArgs := [("reading_freq", "-35791")] }
      [("reading_freq", PrefValue.int 35791)]).2 (by decide) (by decide)⟩

/-- C8 as stated fails: 35792 minutes, read from the store or parsed from the form,
is a positive 32-bit value, and the derived interval is not 35792 * 60000 =
2147520000, which no 32-bit `int` holds. -/
theorem derived_interval_fails :
    (loadConfiguration [("reading_freq", PrefValue.int 35792)]).2.readingFrequencyMinutes
        = 35792
      ∧ (loadConfiguration [("reading_freq", PrefValue.int 35792)]).2.readingFrequency
        ≠ 35792 * 60000
      ∧ (saveConfigCallback
          { params := [], saveParamsCallback := false, configPortalTimeout := 0
            serverArgs := [("reading_freq", "35792")] }
          []).2.readingFrequencyMinutes = 35792
      ∧ (saveConfigCallback
          { params := [], saveParamsCallback := false, configPortalTimeout := 0
            serverArgs := [("reading_freq", "35792")] }
          []).2.readingFrequency ≠ 35792 * 60000
      ∧ (saveConfigCallback
          { params := [], saveParamsCallback := false, configPortalTimeout := 0
            serverArgs := [("reading_freq", "-35792")] }
          []).2.readingFrequency ≠ -35792 * 60000 := by
  decide

/-- C9: portal entry without a submission writes nothing. For every store, after
`setupWiFiManager` (which returns the loaded configuration, registers the three
fields filled with it and sets the portal timeout to 300 seconds) and any number of
`loadConfiguration` calls, the store equals the store before, and
`loadConfiguration` returns the same configuration as before. -/
theorem portal_without_submission (fw : Firmware) (n : Nat) :
    (run (step fw Step.setup) (List.replicate n Step.load)).preferences = fw.preferences
      ∧ (loadConfiguration
          (run (step fw Step.setup) (List.replicate n Step.load)).preferences).2
        = (loadConfiguration fw.preferences).2
      ∧ (setupWiFiManager fw.wifiManager fw.preferences).2.1 = fw.preferences
      ∧ (setupWiFiManager fw.wifiManager fw.preferences).2.2
        = (loadConfiguration fw.preferences).2
      ∧ (setupWiFiManager fw.wifiManager fw.preferences).1.configPortalTimeout = 300
      ∧ (setupWiFiManager fw.wifiManager fw.preferences).1.params
        = fw.wifiManager.params
          ++ [{ id := "device_name", label := "Device Name", length := 40
                value := String.mk ((loadConfiguration fw.preferences).2.deviceName.data.take 40) },
              { id := "server_url", label := "Dashboard URL", length := 100
                value := String.mk ((loadConfiguration fw.preferences).2.serverURL.data.take 100) },
              { id := "reading_freq", label := "Reading Frequency (minutes)", length := 10
                value := String.mk ((toString
                  (loadConfiguration fw.preferences).2.readingFrequencyMinutes).data.take 10) }] := by
  have hsteps : ∀ s ∈ List.replicate n Step.load, s = Step.setup ∨ s = Step.load :=
    fun s hs => Or.inr (List.eq_of_mem_replicate hs)
  have hstore : (run (step fw Step.setup) (List.replicate n Step.load)).preferences
      = fw.preferences := by
    rw [run_preferences_of_no_save _ hsteps]
    rfl
  refine ⟨hstore, by rw [hstore], rfl, rfl, rfl, rfl⟩

end WifiManager

namespace DataSender

/-! ## Properties of the telemetry reporter -/

/-- The four branches of `postDataToServer`, by link state and status code. -/
theorem postDataToServer_cases (net : Network) (serverURL deviceName : String)
    (temperature humidity : ℚ) :
    postDataToServer net serverURL deviceName temperature humidity
      = if net.connected = false then
          { outcome := DeliveryOutcome.NotConnected, calls := [] }
        else if 0 < httpResponseCode net serverURL deviceName temperature humidity then
          if httpResponseCode net serverURL deviceName temperature humidity = 201 then
            { outcome := DeliveryOutcome.Success
              calls :=
                [HttpCall.begin (serverURL ++ "/api/data"),
                  HttpCall.addHeader "Content-Type" "application/json",
                  HttpCall.POST (buildPayload net deviceName temperature humidity),
                  HttpCall.getString, HttpCall.httpEnd] }
          else
            { outcome :=
                DeliveryOutcome.UnexpectedStatus
                  (httpResponseCode net serverURL deviceName temperature humidity) net.response
              calls :=
                [HttpCall.begin (serverURL ++ "/api/data"),
                  HttpCall.addHeader "Content-Type" "application/json",
                  HttpCall.POST (buildPayload net deviceName temperature humidity),
                  HttpCall.getString, HttpCall.httpEnd] }
        else
          { outcome :=
              DeliveryOutcome.TransportError
                (httpResponseCode net serverURL deviceName temperature humidity)
                (net.errorToString
                  (httpResponseCode net serverURL deviceName temperature humidity))
            calls :=
              [HttpCall.begin (serverURL ++ "/api/data"),
                HttpCall.addHeader "Content-Type" "application/json",
                HttpCall.POST (buildPayload net deviceName temperature humidity),
                HttpCall.errorToString
                  (httpResponseCode net serverURL deviceName temperature humidity),
                HttpCall.httpEnd] } := by
  rfl

/-- C10: `postDataToServer` classifies every delivery by the link state and the
status code `c` of the transport. Without a link the outcome is `NotConnected` and no
call is made on the HTTP client; with a link, `c = 201` gives `Success`, every other
`c > 0` gives `UnexpectedStatus`, and every `c ≤ 0` gives `TransportError`; exactly
one of the four cases applies to every input, as the stubbed codes 201, 404 and -1
show. -/
theorem postDataToServer_outcome (net : Network) (serverURL deviceName : String)
    (temperature humidity : ℚ) :
    ((postDataToServer net serverURL deviceName temperature humidity).outcome
          = DeliveryOutcome.NotConnected ↔ net.connected = false)
      ∧ ((postDataToServer net serverURL deviceName temperature humidity).calls = []
          ↔ net.connected = false)
      ∧ ((postDataToServer net serverURL deviceName temperature humidity).outcome
          = DeliveryOutcome.Success
          ↔ net.connected = true
            ∧ httpResponseCode net serverURL deviceName temperature humidity = 201)
      ∧ ((∃ code body,
            (postDataToServer net serverURL deviceName temperature humidity).outcome
              = DeliveryOutcome.UnexpectedStatus code body)
          ↔ net.connected = true
            ∧ 0 < httpResponseCode net serverURL deviceName temperature humidity
            ∧ httpResponseCode net serverURL deviceName temperature humidity ≠ 201)
      ∧ ((∃ code description,
            (postDataToServer net serverURL deviceName temperature humidity).outcome
              = DeliveryOutcome.TransportError code description)
          ↔ net.connected = true
            ∧ httpResponseCode net serverURL deviceName temperature humidity ≤ 0)
      ∧ (postDataToServer { net with post := fun _ _ => 201, connected := true }
            serverURL deviceName temperature humidity).outcome = DeliveryOutcome.Success
      ∧ (postDataToServer { net with post := fun _ _ => 404, connected := true }
            serverURL deviceName temperature humidity).outcome
          = DeliveryOutcome.UnexpectedStatus 404 net.response
      ∧ (postDataToServer { net with post := fun _ _ => -1, connected := true }
            serverURL deviceName temperature humidity).outcome
          = DeliveryOutcome.TransportError (-1) (net.errorToString (-1))
      ∧ (postDataToServer { net with connected := false }
            serverURL deviceName temperature humidity)
          = { outcome := DeliveryOutcome.NotConnected, calls := [] } := by
  refine ⟨?_, ?_, ?_, ?_, ?_, ?_, ?_, ?_, ?_⟩
  · rw [postDataToServer_cases]
    split_ifs <;> simp_all
  · rw [postDataToServer_cases]
    split_ifs <;> simp_all
  · rw [postDataToServer_cases]
    split_ifs with h0 h1 h2
    · simp_all
    · simp_all
    · simp_all
    · simp only [reduceCtorEq, false_iff, not_and]
      intro _
      omega
  · rw [postDataToServer_cases]
    split_ifs with h0 h1 h2
    · simp_all
    · simp_all
    · simp_all
    · simp only [reduceCtorEq, exists_false, false_iff, not_and]
      intro _ hpos
      omega
  · rw [postDataToServer_cases]
    split_ifs with h0 h1 h2
    · simp_all
    · simp only [reduceCtorEq, exists_false, false_iff, not_and]
      intro _
      omega
    · simp only [reduceCtorEq, exists_false, false_iff, not_and]
      intro _
      omega
    · have hle : httpResponseCode net serverURL deviceName temperature humidity ≤ 0 := by
        omega
      simp_all
  · simp [postDataToServer]
  · simp [postDataToServer]
  · simp [postDataToServer]
  · simp [postDataToServer]

end DataSender
